import Mathlib

/-
Verification of the Photo Access & Purchase Reconciliation workflow of the
carolina-photografy-emerge application (spec.md §2–§8).

The repository ships the React client (src/frontend/src/pages/Cart.js,
Events.js, MyPhotos.js, …); it calls a backend API (/api/cart, /api/checkout,
/api/purchases, /api/photos/file/…) whose implementation is not in the
repository snapshot.  Backend operations are therefore modelled from the
spec's component design (§3, §4, §6, §7); client-side behaviour (the
checkout-success polling loop and the add-to-cart failure handlers) is
embedded directly from the source files.
-/

namespace Lumina

/-- Error taxonomy of the checkout workflow (spec §7), plus two modelling
artifacts: `PhotoNotFound` for a photo id missing from the catalog and
`NotVisible` for the event-visibility refusal of §4.4, neither of which the
spec names explicitly. -/
inductive Err where
  | AlreadyOwned
  | EmptyCart
  | DuplicatePurchase
  | NotPurchased
  | SessionNotFound
  | PhotoNotFound
  | NotVisible
  deriving DecidableEq, Repr

/-- Purchase row (spec §3): viewer, photo, event, price paid, originating
checkout session. -/
structure Purchase where
  viewer : Nat
  photo : Nat
  event : Nat
  price : Nat
  session : Nat
  deriving DecidableEq, Repr

/-- CartEntry (spec §3): a (viewer, photo) pair, insertion-ordered. -/
structure CartEntry where
  viewer : Nat
  photo : Nat
  deriving DecidableEq, Repr

/-- Lifecycle status of a CheckoutSession (spec §3/§4.4 state machine). -/
inductive LifeStatus where
  | opened
  | paid
  | expired
  | errored
  deriving DecidableEq, Repr

/-- CheckoutSession (spec §3): provider-issued id, viewer, the immutable
snapshot of (photo id, price) pairs taken at creation, lifecycle status. -/
structure CheckoutSession where
  sid : Nat
  viewer : Nat
  snapshot : List (Nat × Nat)
  status : LifeStatus
  deriving DecidableEq, Repr

/-- Photo catalog record (spec §3/§6): id, owning event, price, storage
references for the three renditions. -/
structure Photo where
  pid : Nat
  event : Nat
  price : Nat
  thumbRef : Nat
  watermarkedRef : Nat
  originalRef : Nat
  deriving DecidableEq, Repr

/-- Read-only Event/Photo catalog (spec §6). -/
abbrev Catalog := List Photo

/-- Durable state owned by this workflow (spec §3): the Purchase Ledger, the
cart store, and the CheckoutSession store. -/
structure State where
  purchases : List Purchase
  cart : List CartEntry
  sessions : List CheckoutSession
  deriving DecidableEq, Repr

/-- Modelled from the spec: Purchase Ledger `isOwned(viewer, photo)` (§4.3),
a boolean existence check over the ledger. -/
def isOwned (s : State) (v p : Nat) : Bool :=
  s.purchases.any (fun r => r.viewer == v && r.photo == p)

/-- Whether the viewer's cart holds an entry for the photo. -/
def cartHas (s : State) (v p : Nat) : Bool :=
  s.cart.any (fun c => c.viewer == v && c.photo == p)

/-- Number of ledger rows for a (viewer, photo) pair. -/
def purchaseCount (s : State) (v p : Nat) : Nat :=
  (s.purchases.filter (fun r => r.viewer == v && r.photo == p)).length

/-- Number of cart entries for a (viewer, photo) pair. -/
def cartCount (s : State) (v p : Nat) : Nat :=
  (s.cart.filter (fun c => c.viewer == v && c.photo == p)).length

/-- The viewer's cart entries, in insertion order (spec §4.1 `view`). -/
def view (s : State) (v : Nat) : List CartEntry :=
  s.cart.filter (fun c => c.viewer == v)

/-- Catalog lookup by photo id. -/
def findPhoto (cat : Catalog) (p : Nat) : Option Photo :=
  cat.find? (fun ph => ph.pid == p)

/-- Current catalog price of a photo (0 when absent). -/
def priceOf (cat : Catalog) (p : Nat) : Nat :=
  match findPhoto cat p with
  | some ph => ph.price
  | none => 0

/-- Owning event of a photo (0 when absent). -/
def eventOf (cat : Catalog) (p : Nat) : Nat :=
  match findPhoto cat p with
  | some ph => ph.event
  | none => 0

/-- Modelled from the spec: Cart Manager `add(viewer, photo)` (§4.1) — fails
with `AlreadyOwned` if a Purchase exists for (viewer, photo); otherwise
inserts a CartEntry if not already present (re-adding is a no-op, not an
error). -/
def add (s : State) (v p : Nat) : Except Err State :=
  if isOwned s v p then .error .AlreadyOwned
  else if cartHas s v p then .ok s
  else .ok { s with cart := s.cart ++ [⟨v, p⟩] }

/-- Modelled from the spec: Cart Manager `remove(viewer, photo)` (§4.1) —
deletes the CartEntry if present; no error if absent. -/
def remove (s : State) (v p : Nat) : State :=
  { s with cart := s.cart.filter (fun c => !(c.viewer == v && c.photo == p)) }

/-- Modelled from the spec: Purchase Ledger `recordPurchase` (§4.3) — fails
with `DuplicatePurchase` if (viewer, photo) already exists, else inserts one
row. -/
def recordPurchase (s : State) (v p e price sid : Nat) : Except Err State :=
  if isOwned s v p then .error .DuplicatePurchase
  else .ok { s with purchases := s.purchases ++ [⟨v, p, e, price, sid⟩] }

/-- Modelled from the spec: Checkout Session Orchestrator
`createSession(viewer)` (§4.2) — fails with `EmptyCart` if the viewer's cart
is empty; otherwise snapshots the current cart (photo ids + current prices)
into a new CheckoutSession in `opened` status. -/
def createSession (cat : Catalog) (s : State) (v sid : Nat) : Except Err State :=
  let entries := view s v
  if entries.isEmpty then .error .EmptyCart
  else .ok { s with sessions := s.sessions ++
    [{ sid := sid, viewer := v,
       snapshot := entries.map (fun c => (c.photo, priceOf cat c.photo)),
       status := .opened }] }

/-- Payment status reported by the external payment provider (spec §6). -/
inductive PayStatus where
  | paid
  | unpaid
  deriving DecidableEq, Repr

/-- Session status reported by the external payment provider (spec §6). -/
inductive ProvSessStatus where
  | stillOpen
  | expired
  | complete
  deriving DecidableEq, Repr

/-- What the external payment provider reports for a session (spec §6
`getSessionStatus`). -/
structure ProviderView where
  payment : PayStatus
  session : ProvSessStatus
  deriving DecidableEq, Repr

/-- The external payment provider, as a map from session id to its report. -/
abbrev Provider := Nat → ProviderView

/-- Status returned by `getStatus` (spec §4.2): `pending`, `paid`,
`expired`. -/
inductive QueryStatus where
  | pending
  | paid
  | expired
  deriving DecidableEq, Repr

/-- Mapping of a provider report to a `getStatus` result (spec §4.2/§6). -/
def mapProvider (pv : ProviderView) : QueryStatus :=
  if pv.payment == .paid then .paid
  else
    match pv.session with
    | .expired => .expired
    | _ => .pending

/-- Modelled from the spec: Checkout Session Orchestrator
`getStatus(sessionId)` (§4.2) — queries the external provider for current
status; does not itself mutate the Purchase Ledger or any other durable
state, which the explicit state passing makes checkable. -/
def getStatus (provider : Provider) (s : State) (sid : Nat) :
    (Except Err QueryStatus) × State :=
  match s.sessions.find? (fun cs => cs.sid == sid) with
  | none => (.error .SessionNotFound, s)
  | some _ => (.ok (mapProvider (provider sid)), s)

/-- One reconciliation step for a snapshot item (photo, price): insert a
Purchase row guarded by the (viewer, photo) uniqueness invariant
(a duplicate is swallowed, spec §4.3/§7), then clear the corresponding
CartEntry. -/
def reconcileItem (cat : Catalog) (v sid : Nat) (st : State) (item : Nat × Nat) :
    State :=
  if isOwned st v item.fst then
    { st with cart :=
        st.cart.filter (fun c => !(c.viewer == v && c.photo == item.fst)) }
  else
    { st with
        purchases :=
          st.purchases ++ [⟨v, item.fst, eventOf cat item.fst, item.snd, sid⟩],
        cart :=
          st.cart.filter (fun c => !(c.viewer == v && c.photo == item.fst)) }

/-- Whether the ledger already holds rows originating from this session. -/
def sessionRecorded (s : State) (sid : Nat) : Bool :=
  s.purchases.any (fun r => r.session == sid)

/-- Modelled from the spec: Checkout Session Orchestrator
`reconcile(sessionId)` (§4.2) — if the session is unknown, `SessionNotFound`;
if the provider does not report `paid`, a no-op reporting the current
status; if Purchase records already exist for this session, do nothing and
report success; otherwise, for each (photo, price) in the session snapshot,
insert a Purchase row guarded by the uniqueness invariant, then clear the
corresponding CartEntries. -/
def reconcile (cat : Catalog) (provider : Provider) (s : State) (sid : Nat) :
    (Except Err QueryStatus) × State :=
  match s.sessions.find? (fun cs => cs.sid == sid) with
  | none => (.error .SessionNotFound, s)
  | some cs =>
    match mapProvider (provider sid) with
    | .paid =>
      if sessionRecorded s sid then (.ok .paid, s)
      else (.ok .paid, cs.snapshot.foldl (reconcileItem cat cs.viewer sid) s)
    | q => (.ok q, s)

/-- Requested rendition kind (spec §4.4). -/
inductive Rendition where
  | thumbnail
  | watermarked
  | original
  deriving DecidableEq, Repr

/-- Modelled from the spec: Photo Access Gate
`resolveRendition(viewer, photo, requestedKind)` (§4.4) — `thumbnail` and
`watermarked` are permitted exactly when the viewer may see the event
(the visibility fact `maySee` is supplied by the out-of-scope event layer);
`original` is permitted only if `isOwned(viewer, photo)`, else fails with
`NotPurchased`.  Pure: no state is taken apart from reads, none returned. -/
def resolveRendition (cat : Catalog) (s : State) (maySee : Bool) (v p : Nat)
    (k : Rendition) : Except Err Nat :=
  match findPhoto cat p with
  | none => .error .PhotoNotFound
  | some ph =>
    match k with
    | .thumbnail => if maySee then .ok ph.thumbRef else .error .NotVisible
    | .watermarked => if maySee then .ok ph.watermarkedRef else .error .NotVisible
    | .original =>
        if isOwned s v p then .ok ph.originalRef else .error .NotPurchased

/-- Operations of the workflow, for reasoning about arbitrary later
activity over the durable state. -/
inductive Op where
  | addOp (v p : Nat)
  | removeOp (v p : Nat)
  | recordOp (v p e price sid : Nat)
  | sessionOp (v sid : Nat)
  | statusOp (sid : Nat)
  | reconcileOp (sid : Nat)
  deriving DecidableEq, Repr

/-- Effect of one operation on the durable state; a failing operation
leaves the state unchanged (spec §7: all failures are scoped to the single
request). -/
def step (cat : Catalog) (provider : Provider) (s : State) : Op → State
  | .addOp v p =>
      match add s v p with
      | .ok s' => s'
      | .error _ => s
  | .removeOp v p => remove s v p
  | .recordOp v p e price sid =>
      match recordPurchase s v p e price sid with
      | .ok s' => s'
      | .error _ => s
  | .sessionOp v sid =>
      match createSession cat s v sid with
      | .ok s' => s'
      | .error _ => s
  | .statusOp sid => (getStatus provider s sid).2
  | .reconcileOp sid => (reconcile cat provider s sid).2

/-- Effect of a sequence of operations, applied left to right. -/
def run (cat : Catalog) (provider : Provider) (s : State) : List Op → State
  | [] => s
  | op :: ops => run cat provider (step cat provider s op) ops

/-! Client-side model, embedded from the React source. -/

/-- Response the client sees for one status poll
(src/frontend/src/pages/Cart.js, CheckoutSuccess.checkStatus): `paid` when
`response.data.payment_status === "paid"`, `expired` when
`response.data.status === "expired"`, `other` for any other successful
response, `fail` when the request throws. -/
inductive PollResp where
  | paid
  | expired
  | other
  | fail
  deriving DecidableEq, Repr

/-- Client status of the CheckoutSuccess page
(src/frontend/src/pages/Cart.js `status` state). -/
inductive CStatus where
  | loading
  | success
  | expired
  | pending
  | error
  deriving DecidableEq, Repr

/-- Retry interval in milliseconds used by the CheckoutSuccess poller
(src/frontend/src/pages/Cart.js: `setTimeout(..., 2000)`). -/
def pollIntervalMs : Nat := 2000

/-- Maximum retry count of the CheckoutSuccess poller
(src/frontend/src/pages/Cart.js: `retries < 5`). -/
def maxRetries : Nat := 5

/-- The CheckoutSuccess polling loop from src/frontend/src/pages/Cart.js,
starting at a given `retries` value: issue one status request, then either
settle on a terminal client status or bump `retries` and run again (the
effect re-fires because `retries` is in its dependency array).  Returns the
final client status and the total number of requests issued so far
(requests happen at retry counters `retries`, `retries+1`, …). -/
def pollFrom (responses : Nat → PollResp) (retries : Nat) : CStatus × Nat :=
  match responses retries with
  | .fail => (.error, retries + 1)
  | .paid => (.success, retries + 1)
  | .expired => (.expired, retries + 1)
  | .other =>
      if h : retries < maxRetries then pollFrom responses (retries + 1)
      else (.pending, retries + 1)
termination_by maxRetries + 1 - retries
decreasing_by
  simp only [maxRetries] at *
  omega

/-- The CheckoutSuccess page effect from src/frontend/src/pages/Cart.js:
with no `session_id` query parameter it sets the error state and returns
before any request is made; otherwise it runs the polling loop from
`retries = 0`.  Result: final client status and number of status requests
issued. -/
def checkoutSuccessRun (sessionId : Option Nat) (responses : Nat → PollResp) :
    CStatus × Nat :=
  match sessionId with
  | none => (.error, 0)
  | some _ => pollFrom responses 0

/-- Notice kind surfaced by a client toast. -/
inductive Notice where
  | successNotice
  | infoNotice
  | errorNotice
  deriving DecidableEq, Repr

/-- Backend detail message the clients compare against
(src/frontend/src/pages/Events.js and MyPhotos.js). -/
def purchasedDetail : String := "Photo already purchased"

/-- Failure handler of `addToCart` in src/frontend/src/pages/Events.js:
`error.response?.data?.detail === "Photo already purchased"` yields an
informational toast, anything else an error toast. -/
def eventsAddFailureNotice (detail : Option String) : Notice :=
  if detail == some purchasedDetail then .infoNotice else .errorNotice

/-- Failure handler of `addToCart` in src/frontend/src/pages/MyPhotos.js:
same comparison and same two toasts as the Events gallery handler. -/
def myPhotosAddFailureNotice (detail : Option String) : Notice :=
  if detail == some purchasedDetail then .infoNotice else .errorNotice

/-- Concrete catalog used to exercise the theorems: photos 7 and 8 of
event 3, priced 10 and 15, with distinct rendition references. -/
def wCat : Catalog :=
  [⟨7, 3, 10, 70, 71, 72⟩, ⟨8, 3, 15, 80, 81, 82⟩]

/-- Photo 7 of the concrete catalog. -/
def wPhoto : Photo := ⟨7, 3, 10, 70, 71, 72⟩

/-- Concrete provider reporting every session as paid and complete. -/
def wProvider : Provider := fun _ => ⟨.paid, .complete⟩

/-- Concrete state: viewer 1 has photos 7 and 8 in the cart and an open
checkout session 42 snapshotting them. -/
def wState : State :=
  { purchases := []
    cart := [⟨1, 7⟩, ⟨1, 8⟩]
    sessions := [⟨42, 1, [(7, 10), (8, 15)], .opened⟩] }

/-- Concrete state: `wState` after recording the purchase of photo 7 by
viewer 1 out of session 42. -/
def wState2 : State :=
  { purchases := [⟨1, 7, 3, 10, 42⟩]
    cart := [⟨1, 7⟩, ⟨1, 8⟩]
    sessions := [⟨42, 1, [(7, 10), (8, 15)], .opened⟩] }

/-- Concrete state: viewer 1 owns photo 7 and the cart no longer holds it. -/
def wOwnedClean : State :=
  { purchases := [⟨1, 7, 3, 10, 42⟩]
    cart := [⟨1, 8⟩]
    sessions := [] }

/-- Concrete state: photo 9 is in viewer 2's cart and owned by nobody. -/
def wCartOnly : State :=
  { purchases := []
    cart := [⟨2, 9⟩]
    sessions := [] }

/-! Helper lemmas. -/

/-- Filtering cannot make `any` become true. -/
theorem any_filter_false {α : Type} (l : List α) (q f : α → Bool)
    (h : l.any q = false) : (l.filter f).any q = false := by
  simp only [List.any_eq_false] at h ⊢
  intro x hx
  exact h x (List.mem_filter.1 hx).1

/-- Ownership only reads the ledger component. -/
theorem isOwned_congr (s s' : State) (v p : Nat)
    (h : s'.purchases = s.purchases) : isOwned s' v p = isOwned s v p := by
  unfold isOwned
  rw [h]

/-- Cart membership only reads the cart component. -/
theorem cartHas_congr (s s' : State) (v p : Nat)
    (h : s'.cart = s.cart) : cartHas s' v p = cartHas s v p := by
  unfold cartHas
  rw [h]

/-- Ledger row count only reads the ledger component. -/
theorem purchaseCount_congr (s s' : State) (v p : Nat)
    (h : s'.purchases = s.purchases) :
    purchaseCount s' v p = purchaseCount s v p := by
  unfold purchaseCount
  rw [h]

/-- An empty ledger slice for (v, p) is the same as not owning (v, p). -/
theorem purchaseCount_eq_zero (s : State) (v p : Nat) :
    purchaseCount s v p = 0 ↔ isOwned s v p = false := by
  unfold purchaseCount isOwned
  rw [List.length_eq_zero, List.filter_eq_nil_iff, List.any_eq_false]

/-- An empty cart slice for (v, p) is the same as (v, p) being absent. -/
theorem cartCount_eq_zero (s : State) (v p : Nat) :
    cartCount s v p = 0 ↔ cartHas s v p = false := by
  unfold cartCount cartHas
  rw [List.length_eq_zero, List.filter_eq_nil_iff, List.any_eq_false]

/-- Ledger component of a reconciliation step. -/
theorem reconcileItem_purchases (cat : Catalog) (v sid : Nat) (st : State)
    (it : Nat × Nat) :
    (reconcileItem cat v sid st it).purchases =
      if isOwned st v it.fst then st.purchases
      else st.purchases ++ [⟨v, it.fst, eventOf cat it.fst, it.snd, sid⟩] := by
  unfold reconcileItem
  by_cases h : isOwned st v it.fst <;> simp [h]

/-- Cart component of a reconciliation step. -/
theorem reconcileItem_cart (cat : Catalog) (v sid : Nat) (st : State)
    (it : Nat × Nat) :
    (reconcileItem cat v sid st it).cart =
      st.cart.filter (fun c => !(c.viewer == v && c.photo == it.fst)) := by
  unfold reconcileItem
  by_cases h : isOwned st v it.fst <;> simp [h]

/-- Session component of a reconciliation step. -/
theorem reconcileItem_sessions (cat : Catalog) (v sid : Nat) (st : State)
    (it : Nat × Nat) :
    (reconcileItem cat v sid st it).sessions = st.sessions := by
  unfold reconcileItem
  by_cases h : isOwned st v it.fst <;> simp [h]

/-- A reconciliation step never unsets ownership. -/
theorem isOwned_reconcileItem_mono (cat : Catalog) (v' sid : Nat) (st : State)
    (it : Nat × Nat) (v p : Nat) (h : isOwned st v p = true) :
    isOwned (reconcileItem cat v' sid st it) v p = true := by
  unfold isOwned at h ⊢
  rw [reconcileItem_purchases]
  split
  · exact h
  · simp [List.any_append, h]

/-- A reconciliation step never adds cart entries. -/
theorem cartHas_reconcileItem_false (cat : Catalog) (v' sid : Nat) (st : State)
    (it : Nat × Nat) (v p : Nat) (h : cartHas st v p = false) :
    cartHas (reconcileItem cat v' sid st it) v p = false := by
  unfold cartHas at h ⊢
  rw [reconcileItem_cart]
  exact any_filter_false _ _ _ h

/-- After its reconciliation step, the snapshot item's photo is owned. -/
theorem isOwned_reconcileItem_self (cat : Catalog) (v sid : Nat) (st : State)
    (it : Nat × Nat) :
    isOwned (reconcileItem cat v sid st it) v it.fst = true := by
  unfold isOwned
  rw [reconcileItem_purchases]
  split
  · next h => exact h
  · simp [List.any_append]

/-- After its reconciliation step, the snapshot item's cart entry is gone. -/
theorem cartHas_reconcileItem_self (cat : Catalog) (v sid : Nat) (st : State)
    (it : Nat × Nat) :
    cartHas (reconcileItem cat v sid st it) v it.fst = false := by
  unfold cartHas
  rw [reconcileItem_cart]
  simp only [List.any_eq_false]
  intro c hc
  have h2 := (List.mem_filter.1 hc).2
  intro hx
  rw [hx] at h2
  simp at h2

/-- Folding reconciliation steps never unsets ownership. -/
theorem isOwned_foldl_mono (cat : Catalog) (v' sid : Nat)
    (snap : List (Nat × Nat)) (st : State) (v p : Nat)
    (h : isOwned st v p = true) :
    isOwned (snap.foldl (reconcileItem cat v' sid) st) v p = true := by
  induction snap generalizing st with
  | nil => exact h
  | cons it rest ih =>
      rw [List.foldl_cons]
      exact ih _ (isOwned_reconcileItem_mono cat v' sid st it v p h)

/-- Folding reconciliation steps never adds cart entries. -/
theorem cartHas_foldl_false (cat : Catalog) (v' sid : Nat)
    (snap : List (Nat × Nat)) (st : State) (v p : Nat)
    (h : cartHas st v p = false) :
    cartHas (snap.foldl (reconcileItem cat v' sid) st) v p = false := by
  induction snap generalizing st with
  | nil => exact h
  | cons it rest ih =>
      rw [List.foldl_cons]
      exact ih _ (cartHas_reconcileItem_false cat v' sid st it v p h)

/-- Folding reconciliation steps never touches the session store. -/
theorem sessions_foldl (cat : Catalog) (v' sid : Nat)
    (snap : List (Nat × Nat)) (st : State) :
    (snap.foldl (reconcileItem cat v' sid) st).sessions = st.sessions := by
  induction snap generalizing st with
  | nil => rfl
  | cons it rest ih =>
      rw [List.foldl_cons, ih, reconcileItem_sessions]

/-- After a full reconciliation pass, every snapshot photo is owned by the
session's viewer and absent from that viewer's cart. -/
theorem foldl_establishes (cat : Catalog) (v sid : Nat)
    (snap : List (Nat × Nat)) (st : State) :
    ∀ it ∈ snap,
      isOwned (snap.foldl (reconcileItem cat v sid) st) v it.fst = true ∧
      cartHas (snap.foldl (reconcileItem cat v sid) st) v it.fst = false := by
  induction snap generalizing st with
  | nil => intro it hit; cases hit
  | cons a rest ih =>
      intro it hit
      rw [List.foldl_cons]
      rcases List.mem_cons.1 hit with heq | hmem
      · subst heq
        constructor
        · exact isOwned_foldl_mono cat v sid rest _ v it.fst
            (isOwned_reconcileItem_self cat v sid st it)
        · exact cartHas_foldl_false cat v sid rest _ v it.fst
            (cartHas_reconcileItem_self cat v sid st it)
      · exact ih _ it hmem

/-- A reconciliation step for an item already owned and already absent from
the cart changes nothing. -/
theorem reconcileItem_noop (cat : Catalog) (v sid : Nat) (st : State)
    (it : Nat × Nat) (h1 : isOwned st v it.fst = true)
    (h2 : cartHas st v it.fst = false) :
    reconcileItem cat v sid st it = st := by
  unfold reconcileItem
  rw [if_pos h1]
  have hfil : st.cart.filter (fun c => !(c.viewer == v && c.photo == it.fst)) =
      st.cart := by
    apply List.filter_eq_self.mpr
    intro c hc
    unfold cartHas at h2
    rw [List.any_eq_false] at h2
    have hcv := h2 c hc
    rw [Bool.not_eq_true] at hcv
    simp [hcv]
  rw [hfil]

/-- A full reconciliation pass over a snapshot whose photos are all owned
and all absent from the cart changes nothing. -/
theorem foldl_reconcile_noop (cat : Catalog) (v sid : Nat)
    (snap : List (Nat × Nat)) (st : State)
    (h : ∀ it ∈ snap, isOwned st v it.fst = true ∧ cartHas st v it.fst = false) :
    snap.foldl (reconcileItem cat v sid) st = st := by
  induction snap with
  | nil => rfl
  | cons a rest ih =>
      have ha := h a (List.mem_cons_self a rest)
      rw [List.foldl_cons, reconcileItem_noop cat v sid st a ha.1 ha.2]
      exact ih (fun it hit => h it (List.mem_cons_of_mem a hit))

/-- `getStatus` returns the state unchanged. -/
theorem getStatus_snd (provider : Provider) (s : State) (sid : Nat) :
    (getStatus provider s sid).2 = s := by
  unfold getStatus
  cases s.sessions.find? (fun cs => cs.sid == sid) <;> rfl

/-- Characterisation of the state after `reconcile`. -/
theorem reconcile_snd (cat : Catalog) (provider : Provider) (s : State)
    (sid : Nat) :
    (reconcile cat provider s sid).2 =
      match s.sessions.find? (fun cs => cs.sid == sid) with
      | none => s
      | some cs =>
        match mapProvider (provider sid) with
        | .paid =>
            if sessionRecorded s sid then s
            else cs.snapshot.foldl (reconcileItem cat cs.viewer sid) s
        | _ => s := by
  unfold reconcile
  cases s.sessions.find? (fun cs => cs.sid == sid) with
  | none => rfl
  | some cs =>
      cases mapProvider (provider sid) with
      | paid =>
          by_cases h : sessionRecorded s sid <;> simp [h]
      | pending => rfl
      | expired => rfl

/-- The ledger component after one operation, when (v, p) is owned: no
operation can add a second (v, p) row because every insertion is guarded
by the uniqueness check. -/
theorem purchaseCount_reconcileItem_of_owned (cat : Catalog) (v' sid : Nat)
    (st : State) (it : Nat × Nat) (v p : Nat) (h : isOwned st v p = true) :
    purchaseCount (reconcileItem cat v' sid st it) v p =
      purchaseCount st v p := by
  unfold purchaseCount
  rw [reconcileItem_purchases]
  split
  · rfl
  · next hguard =>
      rw [List.filter_append, List.length_append]
      have hrow : (([⟨v', it.fst, eventOf cat it.fst, it.snd, sid⟩] :
          List Purchase).filter
            (fun r => r.viewer == v && r.photo == p)).length = 0 := by
        rw [List.length_eq_zero, List.filter_eq_nil_iff]
        intro a ha
        rw [List.mem_singleton] at ha
        subst ha
        intro hx
        simp only [Bool.and_eq_true, beq_iff_eq] at hx
        rw [Bool.not_eq_true] at hguard
        rw [hx.1, hx.2] at hguard
        rw [h] at hguard
        simp at hguard
      simp [hrow]


/-- Appending a row guarded for a different pair keeps the (v, p) slice. -/
theorem purchaseCount_append_row (s : State) (v' p' e pr sid v p : Nat)
    (hguard : isOwned s v' p' = false) (h : isOwned s v p = true) :
    purchaseCount { s with purchases := s.purchases ++ [⟨v', p', e, pr, sid⟩] }
      v p = purchaseCount s v p := by
  unfold purchaseCount
  simp only [List.filter_append, List.length_append]
  have hrow : (([⟨v', p', e, pr, sid⟩] : List Purchase).filter
      (fun r => r.viewer == v && r.photo == p)).length = 0 := by
    rw [List.length_eq_zero, List.filter_eq_nil_iff]
    intro a ha
    rw [List.mem_singleton] at ha
    subst ha
    intro hx
    simp only [Bool.and_eq_true, beq_iff_eq] at hx
    rw [hx.1, hx.2] at hguard
    rw [h] at hguard
    simp at hguard
  simp [hrow]

/-- Folding reconciliation steps keeps the (v, p) ledger slice when (v, p)
is already owned. -/
theorem purchaseCount_foldl_of_owned (cat : Catalog) (v' sid : Nat)
    (snap : List (Nat × Nat)) (st : State) (v p : Nat)
    (h : isOwned st v p = true) :
    purchaseCount (snap.foldl (reconcileItem cat v' sid) st) v p =
      purchaseCount st v p := by
  induction snap generalizing st with
  | nil => rfl
  | cons it rest ih =>
      rw [List.foldl_cons,
        ih _ (isOwned_reconcileItem_mono cat v' sid st it v p h),
        purchaseCount_reconcileItem_of_owned cat v' sid st it v p h]

/-- Ledger component of an `addOp` step. -/
theorem step_addOp_purchases (cat : Catalog) (provider : Provider) (s : State)
    (v' p' : Nat) :
    (step cat provider s (Op.addOp v' p')).purchases = s.purchases := by
  unfold step add
  by_cases h1 : isOwned s v' p'
  · simp [h1]
  · by_cases h2 : cartHas s v' p' <;> simp [h1, h2]

/-- Ledger component of a `sessionOp` step. -/
theorem step_sessionOp_purchases (cat : Catalog) (provider : Provider)
    (s : State) (v' sid : Nat) :
    (step cat provider s (Op.sessionOp v' sid)).purchases = s.purchases := by
  unfold step createSession
  by_cases h : (view s v').isEmpty <;> simp [h]

/-- Cart component of a `sessionOp` step. -/
theorem step_sessionOp_cart (cat : Catalog) (provider : Provider)
    (s : State) (v' sid : Nat) :
    (step cat provider s (Op.sessionOp v' sid)).cart = s.cart := by
  unfold step createSession
  by_cases h : (view s v').isEmpty <;> simp [h]

/-- A `statusOp` step is the identity on the durable state. -/
theorem step_statusOp_eq (cat : Catalog) (provider : Provider) (s : State)
    (sid : Nat) : step cat provider s (Op.statusOp sid) = s := by
  unfold step
  exact getStatus_snd provider s sid

/-- Characterisation of a `recordOp` step. -/
theorem step_recordOp_eq (cat : Catalog) (provider : Provider) (s : State)
    (v' p' e pr sid : Nat) :
    step cat provider s (Op.recordOp v' p' e pr sid) =
      if isOwned s v' p' then s
      else { s with purchases := s.purchases ++ [⟨v', p', e, pr, sid⟩] } := by
  unfold step recordPurchase
  by_cases h : isOwned s v' p' <;> simp [h]


/-- No operation ever unsets ownership: Purchase rows are immutable and
never deleted (spec §3). -/
theorem isOwned_step_mono (cat : Catalog) (provider : Provider) (s : State)
    (op : Op) (v p : Nat) (h : isOwned s v p = true) :
    isOwned (step cat provider s op) v p = true := by
  cases op with
  | addOp v' p' =>
      rw [isOwned_congr s _ v p (step_addOp_purchases cat provider s v' p')]
      exact h
  | removeOp v' p' => exact h
  | recordOp v' p' e pr sid =>
      rw [step_recordOp_eq]
      split
      · exact h
      · unfold isOwned at h ⊢
        simp [List.any_append, h]
  | sessionOp v' sid =>
      rw [isOwned_congr s _ v p (step_sessionOp_purchases cat provider s v' sid)]
      exact h
  | statusOp sid =>
      rw [step_statusOp_eq]
      exact h
  | reconcileOp sid =>
      show isOwned (reconcile cat provider s sid).2 v p = true
      rw [reconcile_snd]
      cases hf : s.sessions.find? (fun cs => cs.sid == sid) with
      | none => exact h
      | some cs =>
          cases mapProvider (provider sid) with
          | paid =>
              by_cases hr : sessionRecorded s sid
              · simp only [hr, if_true]
                exact h
              · simp only [hr, if_false]
                exact isOwned_foldl_mono cat cs.viewer sid cs.snapshot s v p h
          | pending => exact h
          | expired => exact h

/-- Once (v, p) is owned, no operation changes the (v, p) ledger slice:
every insertion is guarded by the uniqueness invariant. -/
theorem purchaseCount_step_of_owned (cat : Catalog) (provider : Provider)
    (s : State) (op : Op) (v p : Nat) (h : isOwned s v p = true) :
    purchaseCount (step cat provider s op) v p = purchaseCount s v p := by
  cases op with
  | addOp v' p' =>
      exact purchaseCount_congr s _ v p (step_addOp_purchases cat provider s v' p')
  | removeOp v' p' => rfl
  | recordOp v' p' e pr sid =>
      rw [step_recordOp_eq]
      split
      · rfl
      · next hguard =>
          rw [Bool.not_eq_true] at hguard
          exact purchaseCount_append_row s v' p' e pr sid v p hguard h
  | sessionOp v' sid =>
      exact purchaseCount_congr s _ v p
        (step_sessionOp_purchases cat provider s v' sid)
  | statusOp sid =>
      rw [step_statusOp_eq]
  | reconcileOp sid =>
      show purchaseCount (reconcile cat provider s sid).2 v p = purchaseCount s v p
      rw [reconcile_snd]
      cases hf : s.sessions.find? (fun cs => cs.sid == sid) with
      | none => rfl
      | some cs =>
          cases mapProvider (provider sid) with
          | paid =>
              by_cases hr : sessionRecorded s sid
              · simp only [hr, if_true]
              · simp only [hr, if_false]
                exact purchaseCount_foldl_of_owned cat cs.viewer sid cs.snapshot s v p h
          | pending => rfl
          | expired => rfl

/-- Once (v, p) is owned and out of the cart, no operation can re-insert it:
`add` rejects owned photos and everything else only removes entries. -/
theorem cartHas_step_false (cat : Catalog) (provider : Provider) (s : State)
    (op : Op) (v p : Nat) (hown : isOwned s v p = true)
    (hcart : cartHas s v p = false) :
    cartHas (step cat provider s op) v p = false := by
  cases op with
  | addOp v' p' =>
      unfold step add
      by_cases h1 : isOwned s v' p'
      · simpa [h1] using hcart
      · by_cases h2 : cartHas s v' p'
        · simpa [h1, h2] using hcart
        · simp only [h1, h2, if_false, Bool.false_eq_true]
          unfold cartHas at hcart ⊢
          simp only [List.any_append, hcart, List.any_cons, List.any_nil,
            Bool.false_or, Bool.or_false]
          by_cases hv : v' = v
          · by_cases hp2 : p' = p
            · exfalso
              rw [hv, hp2] at h1
              exact h1 hown
            · simp [beq_eq_false_iff_ne.mpr hp2]
          · simp [beq_eq_false_iff_ne.mpr hv]
  | removeOp v' p' =>
      unfold step remove cartHas
      unfold cartHas at hcart
      exact any_filter_false _ _ _ hcart
  | recordOp v' p' e pr sid =>
      rw [step_recordOp_eq]
      split
      · exact hcart
      · rw [cartHas_congr s _ v p (by rfl)]
        exact hcart
  | sessionOp v' sid =>
      rw [cartHas_congr s _ v p (step_sessionOp_cart cat provider s v' sid)]
      exact hcart
  | statusOp sid =>
      rw [step_statusOp_eq]
      exact hcart
  | reconcileOp sid =>
      show cartHas (reconcile cat provider s sid).2 v p = false
      rw [reconcile_snd]
      cases hf : s.sessions.find? (fun cs => cs.sid == sid) with
      | none => exact hcart
      | some cs =>
          cases mapProvider (provider sid) with
          | paid =>
              by_cases hr : sessionRecorded s sid
              · simp only [hr, if_true]
                exact hcart
              · simp only [hr, if_false]
                exact cartHas_foldl_false cat cs.viewer sid cs.snapshot s v p hcart
          | pending => exact hcart
          | expired => exact hcart

/-- Ownership is permanent across any sequence of operations. -/
theorem isOwned_run_mono (cat : Catalog) (provider : Provider) (ops : List Op)
    (s : State) (v p : Nat) (h : isOwned s v p = true) :
    isOwned (run cat provider s ops) v p = true := by
  induction ops generalizing s with
  | nil => exact h
  | cons op ops ih => exact ih _ (isOwned_step_mono cat provider s op v p h)

/-- The (v, p) ledger slice is frozen across any sequence of operations
once (v, p) is owned. -/
theorem purchaseCount_run_of_owned (cat : Catalog) (provider : Provider)
    (ops : List Op) (s : State) (v p : Nat) (h : isOwned s v p = true) :
    purchaseCount (run cat provider s ops) v p = purchaseCount s v p := by
  induction ops generalizing s with
  | nil => rfl
  | cons op ops ih =>
      calc purchaseCount (run cat provider (step cat provider s op) ops) v p
          = purchaseCount (step cat provider s op) v p :=
            ih _ (isOwned_step_mono cat provider s op v p h)
        _ = purchaseCount s v p :=
            purchaseCount_step_of_owned cat provider s op v p h

/-- An owned photo can never re-enter the owner's cart. -/
theorem cartHas_run_false (cat : Catalog) (provider : Provider)
    (ops : List Op) (s : State) (v p : Nat) (hown : isOwned s v p = true)
    (hcart : cartHas s v p = false) :
    cartHas (run cat provider s ops) v p = false := by
  induction ops generalizing s with
  | nil => exact hcart
  | cons op ops ih =>
      exact ih _ (isOwned_step_mono cat provider s op v p hown)
        (cartHas_step_false cat provider s op v p hown hcart)

/-- When every poll response is non-terminal, the loop walks the retry
counter up to the cap and settles on `pending`, having issued exactly
`maxRetries + 1` requests. -/
theorem pollFrom_other (responses : Nat → PollResp)
    (h : ∀ n, responses n = PollResp.other) (r : Nat) (hr : r ≤ maxRetries) :
    pollFrom responses r = (CStatus.pending, maxRetries + 1) := by
  unfold pollFrom
  rw [h r]
  by_cases h5 : r < maxRetries
  · rw [dif_pos h5]
    exact pollFrom_other responses h (r + 1) h5
  · rw [dif_neg h5]
    have heq : r = maxRetries := Nat.le_antisymm hr (Nat.le_of_not_lt h5)
    rw [heq]
termination_by maxRetries + 1 - r
decreasing_by
  simp only [maxRetries] at *
  omega

/-- Whatever the responses, the loop never issues more requests than the
retry cap allows. -/
theorem pollFrom_le (responses : Nat → PollResp) (r : Nat)
    (hr : r ≤ maxRetries) :
    (pollFrom responses r).2 ≤ maxRetries + 1 := by
  unfold pollFrom
  cases hresp : responses r with
  | fail => simpa using Nat.succ_le_succ hr
  | paid => simpa using Nat.succ_le_succ hr
  | expired => simpa using Nat.succ_le_succ hr
  | other =>
      by_cases h5 : r < maxRetries
      · rw [dif_pos h5]
        exact pollFrom_le responses (r + 1) h5
      · rw [dif_neg h5]
        simpa using Nat.succ_le_succ hr
termination_by maxRetries + 1 - r
decreasing_by
  simp only [maxRetries] at *
  omega


/-! Claim theorems. -/

/-- C1: for every checkout session whose external status is `paid`, calling
`reconcile` twice leaves the Purchase Ledger and the session viewer's cart —
indeed the whole durable state — exactly as one call does: the guarded
inserts create no duplicate Purchase rows for any (viewer, photo) of the
session snapshot, and the corresponding CartEntries are cleared exactly
once. -/
theorem c1_reconcile_idempotent (cat : Catalog) (provider : Provider)
    (s : State) (sid : Nat)
    (hp : mapProvider (provider sid) = QueryStatus.paid) :
    (reconcile cat provider (reconcile cat provider s sid).2 sid).2 =
      (reconcile cat provider s sid).2 := by
  cases hf : s.sessions.find? (fun cs => cs.sid == sid) with
  | none =>
      have h1 : (reconcile cat provider s sid).2 = s := by
        rw [reconcile_snd, hf]
      rw [h1]
      exact h1
  | some cs =>
      by_cases hr : sessionRecorded s sid
      · have h1 : (reconcile cat provider s sid).2 = s := by
          rw [reconcile_snd, hf, hp]
          simp [hr]
        rw [h1]
        rw [reconcile_snd, hf, hp]
        simp [hr]
      · have h1 : (reconcile cat provider s sid).2 =
            cs.snapshot.foldl (reconcileItem cat cs.viewer sid) s := by
          rw [reconcile_snd, hf, hp]
          simp [hr]
        rw [h1]
        have hf2 : (cs.snapshot.foldl (reconcileItem cat cs.viewer sid)
            s).sessions.find? (fun c => c.sid == sid) = some cs := by
          rw [sessions_foldl]
          exact hf
        rw [reconcile_snd, hf2, hp]
        by_cases hr2 : sessionRecorded
            (cs.snapshot.foldl (reconcileItem cat cs.viewer sid) s) sid
        · simp [hr2]
        · simp only [hr2, if_false]
          exact foldl_reconcile_noop cat cs.viewer sid cs.snapshot
            (cs.snapshot.foldl (reconcileItem cat cs.viewer sid) s)
            (foldl_establishes cat cs.viewer sid cs.snapshot s)

/-- C1 witness: a concrete paid session reconciled twice. -/
theorem c1_reconcile_idempotent_witness :
    mapProvider (wProvider 42) = QueryStatus.paid ∧
    (reconcile wCat wProvider (reconcile wCat wProvider wState 42).2 42).2 =
      (reconcile wCat wProvider wState 42).2 :=
  ⟨rfl, c1_reconcile_idempotent wCat wProvider wState 42 rfl⟩


/-- C2: once `recordPurchase(v, p, …)` has succeeded, every later call with
the same (v, p) — after any sequence of workflow operations and with any
event, price and session arguments — fails with `DuplicatePurchase`, and the
Purchase Ledger still contains exactly one row for (v, p). -/
theorem c2_recordPurchase_unique (cat : Catalog) (provider : Provider)
    (s s' : State) (v p e pr sid : Nat)
    (h : recordPurchase s v p e pr sid = .ok s') (ops : List Op)
    (e' pr' sid' : Nat) :
    recordPurchase (run cat provider s' ops) v p e' pr' sid' =
      .error .DuplicatePurchase ∧
    purchaseCount (run cat provider s' ops) v p = 1 := by
  unfold recordPurchase at h
  by_cases hown : isOwned s v p
  · rw [if_pos hown] at h
    cases h
  · rw [if_neg hown] at h
    have hof : isOwned s v p = false := by
      rw [Bool.not_eq_true] at hown
      exact hown
    have hs' : s' = { s with purchases := s.purchases ++ [⟨v, p, e, pr, sid⟩] } := by
      injection h with h
      exact h.symm
    have hown' : isOwned s' v p = true := by
      rw [hs']
      unfold isOwned
      simp [List.any_append]
    have hcount' : purchaseCount s' v p = 1 := by
      rw [hs']
      unfold purchaseCount
      simp only [List.filter_append, List.length_append]
      have h0 : purchaseCount s v p = 0 := (purchaseCount_eq_zero s v p).mpr hof
      unfold purchaseCount at h0
      rw [h0]
      simp
    constructor
    · unfold recordPurchase
      rw [if_pos (isOwned_run_mono cat provider ops s' v p hown')]
    · rw [purchaseCount_run_of_owned cat provider ops s' v p hown']
      exact hcount'

/-- C2 witness: the purchase of photo 7 by viewer 1 recorded once, then a
reconciliation runs and a duplicate record attempt is rejected. -/
theorem c2_recordPurchase_unique_witness :
    recordPurchase (run wCat wProvider wState2 [Op.reconcileOp 42]) 1 7 3 10 99 =
      .error .DuplicatePurchase ∧
    purchaseCount (run wCat wProvider wState2 [Op.reconcileOp 42]) 1 7 = 1 :=
  c2_recordPurchase_unique wCat wProvider wState wState2 1 7 3 10 42 rfl
    [Op.reconcileOp 42] 3 10 99

/-- C3: `resolveRendition(v, p, original)` fails with `NotPurchased` exactly
while no Purchase exists for (v, p); once `isOwned(v, p)` holds it returns
the original-rendition storage reference, and keeps doing so after any
sequence of operations; thumbnail and watermarked requests are permitted
whenever the viewer may see the event.  The operation is pure: it returns
only a storage reference and no state. -/
theorem c3_resolveRendition_gate (cat : Catalog) (provider : Provider)
    (s : State) (ms : Bool) (v p : Nat) (ph : Photo)
    (hph : findPhoto cat p = some ph) :
    (isOwned s v p = false →
      resolveRendition cat s ms v p .original = .error .NotPurchased) ∧
    (isOwned s v p = true →
      resolveRendition cat s ms v p .original = .ok ph.originalRef) ∧
    (isOwned s v p = true → ∀ ops : List Op,
      resolveRendition cat (run cat provider s ops) ms v p .original =
        .ok ph.originalRef) ∧
    (ms = true →
      resolveRendition cat s ms v p .thumbnail = .ok ph.thumbRef ∧
      resolveRendition cat s ms v p .watermarked = .ok ph.watermarkedRef) := by
  refine ⟨?_, ?_, ?_, ?_⟩
  · intro h
    simp [resolveRendition, hph, h]
  · intro h
    simp [resolveRendition, hph, h]
  · intro h ops
    have hrun := isOwned_run_mono cat provider ops s v p h
    simp [resolveRendition, hph, hrun]
  · intro hms
    constructor <;> simp [resolveRendition, hph, hms]

/-- C3 witness: viewer 1 owns photo 7, so the original rendition resolves. -/
theorem c3_resolveRendition_gate_witness :
    findPhoto wCat 7 = some wPhoto ∧
    resolveRendition wCat wState2 true 1 7 Rendition.original =
      .ok wPhoto.originalRef :=
  ⟨rfl, (c3_resolveRendition_gate wCat wProvider wState2 true 1 7 wPhoto
    rfl).2.1 rfl⟩

/-- C4: when `isOwned(v, p)` holds, `add(v, p)` fails with `AlreadyOwned`,
and — starting from a state whose cart respects the invariant — no sequence
of operations can ever put an entry for p into v's cart. -/
theorem c4_add_alreadyOwned (cat : Catalog) (provider : Provider) (s : State)
    (v p : Nat) (hown : isOwned s v p = true) (hcart : cartHas s v p = false) :
    add s v p = .error .AlreadyOwned ∧
    ∀ ops : List Op, cartHas (run cat provider s ops) v p = false := by
  constructor
  · unfold add
    rw [if_pos hown]
  · intro ops
    exact cartHas_run_false cat provider ops s v p hown hcart

/-- C4 witness: viewer 1 owns photo 7, re-adding it is rejected and the
cart stays clean across an add and a remove. -/
theorem c4_add_alreadyOwned_witness :
    add wOwnedClean 1 7 = .error .AlreadyOwned ∧
    cartHas (run wCat wProvider wOwnedClean [Op.addOp 1 7, Op.removeOp 1 8])
      1 7 = false :=
  ⟨(c4_add_alreadyOwned wCat wProvider wOwnedClean 1 7 rfl rfl).1,
   (c4_add_alreadyOwned wCat wProvider wOwnedClean 1 7 rfl rfl).2
     [Op.addOp 1 7, Op.removeOp 1 8]⟩

/-- C5: `createSession(viewer)` on an empty cart fails with `EmptyCart` and
creates no CheckoutSession record — the durable state is unchanged. -/
theorem c5_createSession_emptyCart (cat : Catalog) (provider : Provider)
    (s : State) (v sid : Nat) (h : view s v = []) :
    createSession cat s v sid = .error .EmptyCart ∧
    step cat provider s (Op.sessionOp v sid) = s := by
  have h1 : createSession cat s v sid = .error .EmptyCart := by
    simp [createSession, h]
  refine ⟨h1, ?_⟩
  simp only [step, h1]

/-- C5 witness: viewer 5 has an empty cart, checkout is refused and the
state is untouched. -/
theorem c5_createSession_emptyCart_witness :
    createSession wCat wState 5 77 = .error .EmptyCart ∧
    step wCat wProvider wState (Op.sessionOp 5 77) = wState :=
  c5_createSession_emptyCart wCat wProvider wState 5 77 rfl

/-- C6: `getStatus(sessionId)` leaves the Purchase Ledger, the carts and
the CheckoutSession records — the whole durable state — unchanged, both as
a raw call and as a workflow step; Purchase writes and cart clearing happen
only in the separate `reconcile` step. -/
theorem c6_getStatus_frame (cat : Catalog) (provider : Provider) (s : State)
    (sid : Nat) :
    (getStatus provider s sid).2 = s ∧
    step cat provider s (Op.statusOp sid) = s :=
  ⟨getStatus_snd provider s sid, step_statusOp_eq cat provider s sid⟩


/-- C7: if the status poll never observes a terminal response, the
checkout-success client issues exactly one initial request plus `maxRetries`
(5) retries — six requests — and then surfaces `pending`; and whatever the
responses, it never issues more than six requests. -/
theorem c7_checkoutSuccess_bounded (responses : Nat → PollResp) (sid : Nat) :
    ((∀ n, responses n = PollResp.other) →
      checkoutSuccessRun (some sid) responses = (CStatus.pending, 6)) ∧
    (checkoutSuccessRun (some sid) responses).2 ≤ 6 := by
  constructor
  · intro h
    show pollFrom responses 0 = (CStatus.pending, 6)
    exact pollFrom_other responses h 0 (Nat.zero_le _)
  · show (pollFrom responses 0).2 ≤ 6
    exact pollFrom_le responses 0 (Nat.zero_le _)

/-- C7 witness: a provider that always answers non-terminally makes the
client stop at `pending` after six requests. -/
theorem c7_checkoutSuccess_bounded_witness :
    checkoutSuccessRun (some 0) (fun _ => PollResp.other) =
      (CStatus.pending, 6) :=
  (c7_checkoutSuccess_bounded (fun _ => PollResp.other) 0).1 (fun _ => rfl)

/-- C8: for a photo not yet owned, re-adding an entry already in the cart
succeeds as an exact no-op; a successful `add` is idempotent; and a
successful `add` keeps every (viewer, photo) pair's cart multiplicity at
most one. -/
theorem c8_add_idempotent (s : State) (v p : Nat)
    (h : isOwned s v p = false) :
    (cartHas s v p = true → add s v p = .ok s) ∧
    (∀ s' : State, add s v p = .ok s' → add s' v p = .ok s') ∧
    (∀ s' : State, ∀ v' p' : Nat, add s v p = .ok s' →
      cartCount s v' p' ≤ 1 → cartCount s' v' p' ≤ 1) := by
  have hnot : ¬ isOwned s v p = true := by
    simp [h]
  refine ⟨?_, ?_, ?_⟩
  · intro hc
    unfold add
    rw [if_neg hnot, if_pos hc]
  · intro s' hok
    unfold add at hok
    rw [if_neg hnot] at hok
    by_cases hc : cartHas s v p
    · rw [if_pos hc] at hok
      injection hok with hok
      subst hok
      unfold add
      rw [if_neg hnot, if_pos hc]
    · rw [if_neg hc] at hok
      injection hok with hok
      subst hok
      have h1 : isOwned { s with cart := s.cart ++ [⟨v, p⟩] } v p = false := h
      have h2 : cartHas { s with cart := s.cart ++ [⟨v, p⟩] } v p = true := by
        unfold cartHas
        simp [List.any_append]
      unfold add
      rw [if_neg (by simp [h1]), if_pos h2]
  · intro s' v' p' hok hle
    unfold add at hok
    rw [if_neg hnot] at hok
    by_cases hc : cartHas s v p
    · rw [if_pos hc] at hok
      injection hok with hok
      subst hok
      exact hle
    · rw [if_neg hc] at hok
      injection hok with hok
      subst hok
      unfold cartCount at hle ⊢
      simp only [List.filter_append, List.length_append]
      by_cases hm : v = v' ∧ p = p'
      · obtain ⟨hv, hp2⟩ := hm
        subst hv
        subst hp2
        have hcf : cartHas s v p = false := by
          rw [Bool.not_eq_true] at hc
          exact hc
        have h0 : cartCount s v p = 0 := (cartCount_eq_zero s v p).mpr hcf
        unfold cartCount at h0
        rw [h0]
        simp
      · have hz : (([⟨v, p⟩] : List CartEntry).filter
            (fun c => c.viewer == v' && c.photo == p')).length = 0 := by
          rw [List.length_eq_zero, List.filter_eq_nil_iff]
          intro a ha
          rw [List.mem_singleton] at ha
          subst ha
          intro hx
          simp only [Bool.and_eq_true, beq_iff_eq] at hx
          exact hm ⟨hx.1, hx.2⟩
        rw [hz]
        omega

/-- C8 witness: photo 9 already sits in viewer 2's cart and is unowned, so
re-adding is accepted and changes nothing. -/
theorem c8_add_idempotent_witness :
    add wCartOnly 2 9 = .ok wCartOnly ∧ cartCount wCartOnly 2 9 ≤ 1 :=
  ⟨(c8_add_idempotent wCartOnly 2 9 rfl).1 rfl, by decide⟩

/-- C9: on an add-to-cart failure whose error detail is exactly
"Photo already purchased", both client handlers (Events gallery and
MyPhotos) surface an informational notice; on any other failure detail both
surface an error notice. -/
theorem c9_addFailure_notice (detail : Option String) :
    (detail = some purchasedDetail →
      eventsAddFailureNotice detail = Notice.infoNotice ∧
      myPhotosAddFailureNotice detail = Notice.infoNotice) ∧
    (detail ≠ some purchasedDetail →
      eventsAddFailureNotice detail = Notice.errorNotice ∧
      myPhotosAddFailureNotice detail = Notice.errorNotice) := by
  constructor
  · intro h
    subst h
    constructor <;> simp [eventsAddFailureNotice, myPhotosAddFailureNotice]
  · intro h
    have hb : (detail == some purchasedDetail) = false :=
      beq_eq_false_iff_ne.mpr h
    constructor <;>
      simp [eventsAddFailureNotice, myPhotosAddFailureNotice, hb]

/-- C9 witness: the exact duplicate-purchase detail string yields the
informational notice in both handlers. -/
theorem c9_addFailure_notice_witness :
    eventsAddFailureNotice (some purchasedDetail) = Notice.infoNotice ∧
    myPhotosAddFailureNotice (some purchasedDetail) = Notice.infoNotice :=
  (c9_addFailure_notice (some purchasedDetail)).1 rfl

/-- C10: opened without a `session_id` query parameter, the
checkout-success page goes straight to the error state and issues zero
status requests. -/
theorem c10_no_session_no_request (responses : Nat → PollResp) :
    checkoutSuccessRun none responses = (CStatus.error, 0) := rfl

end Lumina
